import Mathlib

/-!
Shallow embedding of the IMAP MCP manager (src/config.mjs, src/server.mjs).

The stateful IMAP protocol library is modelled by an oracle structure
`ImapServer` giving the outcome of every protocol call; each MCP tool
handler becomes a pure function from that oracle and its arguments to a
pair of its JSON report and the trace of protocol commands it issued.
JavaScript string truthiness (undefined and the empty string are falsy)
is modelled explicitly where the source relies on it.
-/

namespace ImapMcp

/-- JS truthiness of a possibly-missing string: `undefined` and `""` are
falsy, every other string is truthy. -/
def truthyOpt : Option String → Bool
  | none => false
  | some s => s ≠ ""

/-- One entry of `config.accounts` in src/config.mjs: user and password come
from environment variables and may be absent. -/
structure Account where
  name : String
  host : String
  port : Nat
  user : Option String
  password : Option String
  tls : Bool
deriving Repr, DecidableEq

/-- The account table, in `Object.entries` order, keyed by account key. -/
abbrev AccountTable := List (String × Account)

/-- JS property lookup `accounts[accountKey]`: the first entry with the key. -/
def lookupAccount (accounts : AccountTable) (key : String) : Option Account :=
  match accounts.find? (fun kv => kv.1 = key) with
  | none => none
  | some kv => some kv.2

/-- src/config.mjs `getConfiguredAccounts`: keeps only entries whose user and
password are both truthy (`acc.user && acc.password`). -/
def getConfiguredAccounts (accounts : AccountTable) : AccountTable :=
  accounts.filter (fun kv => truthyOpt kv.2.user && truthyOpt kv.2.password)

/-- The connection parameters handed to the `Imap` constructor. -/
structure ImapConn where
  user : Option String
  password : Option String
  host : String
  port : Nat
  tls : Bool
deriving Repr, DecidableEq

/-- src/server.mjs `createImapConnection`: throws (here: `Except.error`) when
the account is missing or its user or password is falsy. The thrown message
is `Account accountKey not configured` (quote characters elided). -/
def createImapConnection (accounts : AccountTable) (accountKey : String) :
    Except String ImapConn :=
  match lookupAccount accounts accountKey with
  | none => .error ("Account " ++ accountKey ++ " not configured")
  | some account =>
    if truthyOpt account.user && truthyOpt account.password then
      .ok { user := account.user, password := account.password,
            host := account.host, port := account.port, tls := account.tls }
    else
      .error ("Account " ++ accountKey ++ " not configured")

/-- A node of the hierarchical mailbox listing returned by `imap.getBoxes`:
delimiter, attributes (`attribs`), and children as an ordered list of
name/node pairs (`Object.entries` order; an absent `children` object is the
empty list). -/
inductive MailboxNode where
  | node (delimiter : String) (attribs : List String)
      (children : List (String × MailboxNode))

def MailboxNode.delimiter : MailboxNode → String
  | .node d _ _ => d

def MailboxNode.attribs : MailboxNode → List String
  | .node _ a _ => a

def MailboxNode.children : MailboxNode → List (String × MailboxNode)
  | .node _ _ c => c

/-- One flat folder entry produced by `flattenMailboxes`. -/
structure FolderDescriptor where
  name : String
  delimiter : String
  flags : List String
deriving Repr, DecidableEq

/-- src/server.mjs `flattenMailboxes`: depth-first flattening. The full name
is `prefix + box.delimiter + name` when the accumulated prefix string is
truthy (nonempty), and the bare `name` otherwise. -/
def flattenMailboxes : List (String × MailboxNode) → String → List FolderDescriptor
  | [], _ => []
  | (name, .node d a c) :: rest, pfx =>
    let fullName := if pfx ≠ "" then pfx ++ d ++ name else name
    { name := fullName, delimiter := d, flags := a }
      :: (flattenMailboxes c fullName ++ flattenMailboxes rest pfx)
termination_by boxes _ => sizeOf boxes
decreasing_by all_goals (simp_wf; try omega)

/-- Spec-side path rule (section 4.3 of the spec): a root folder is named by
its own name; a descendant is named by its parent full path joined with the
delimiter and its own name. -/
def specFullPath (parentPath : Option String) (delim : String) (name : String) :
    String :=
  match parentPath with
  | none => name
  | some p => p ++ delim ++ name

/-- Spec-side flattener, written from the words of the spec: depth-first,
parent descriptor immediately before its children, children in server order,
paths built by `specFullPath`. -/
def specFlatten : Option String → List (String × MailboxNode) →
    List FolderDescriptor
  | _, [] => []
  | parentPath, (name, .node d a c) :: rest =>
    let full := specFullPath parentPath d name
    { name := full, delimiter := d, flags := a }
      :: (specFlatten (some full) c ++ specFlatten parentPath rest)
termination_by _ boxes => sizeOf boxes
decreasing_by all_goals (simp_wf; try omega)

/-- Every folder name in the forest is a nonempty string. -/
def namesOk : List (String × MailboxNode) → Bool
  | [] => true
  | (name, .node _ _ c) :: rest => name ≠ "" && namesOk c && namesOk rest
termination_by boxes => sizeOf boxes
decreasing_by all_goals (simp_wf; try omega)

/-- Search criteria actually built by the handlers: a single-atom criterion
list (`ALL` or a caller-supplied atom) or a `HEADER MESSAGE-ID` search. -/
inductive SearchCriteria where
  | all
  | single (c : String)
  | headerMessageId (mid : String)
deriving Repr, DecidableEq

/-- One protocol command issued on the IMAP connection. `endCmd` is the
`imap.end()` teardown call. -/
inductive Cmd where
  | connect
  | openB (mailbox : String) (readOnly : Bool)
  | getBoxes
  | searchCmd (crit : SearchCriteria)
  | fetchCmd (uids : List Nat)
  | moveCmd (uid : Nat) (target : String)
  | addFlagsCmd (uids : List Nat) (flags : List String)
  | delFlagsCmd (uids : List Nat) (flags : List String)
  | expungeCmd
  | endCmd
deriving Repr, DecidableEq

/-- Raw data of one message produced by the fetch helper: uid, flags and
already-lowercased header fields. -/
structure FetchedEmail where
  uid : Nat
  flags : List String
  date : String
  headers : List (String × String)
deriving Repr, DecidableEq

/-- Oracle for the IMAP server: the outcome of every protocol call the
handlers can make, `Except.error` being a rejected callback. -/
structure ImapServer where
  connectRes : Except String Unit
  openBoxRes : String → Bool → Except String Unit
  getBoxesRes : Except String (List (String × MailboxNode))
  searchRes : SearchCriteria → Except String (List Nat)
  moveRes : Nat → String → Except String Unit
  addFlagsRes : List Nat → List String → Except String Unit
  delFlagsRes : List Nat → List String → Except String Unit
  expungeRes : Except String Unit
  fetchRes : List Nat → Except String (List FetchedEmail)

/-- Report of `imap_list_folders`. Fields absent from a JSON report are
`none`; the catch branch emits only `success` and `error`. -/
structure ListFoldersReport where
  success : Bool
  account : Option String
  folders : Option (List String)
  count : Option Nat
  error : Option String
deriving Repr, DecidableEq

def errLF (e : String) : ListFoldersReport :=
  { success := false, account := none, folders := none, count := none,
    error := some e }

/-- src/server.mjs tool `imap_list_folders`: connect, list mailboxes,
flatten, close; the catch branch closes the connection when it exists and
reports only the error message. Returns the report and the command trace. -/
def imap_list_folders (accounts : AccountTable) (srv : ImapServer)
    (account : String) : ListFoldersReport × List Cmd :=
  match createImapConnection accounts account with
  | .error e => (errLF e, [])
  | .ok _ =>
    match srv.connectRes with
    | .error e => (errLF e, [.connect, .endCmd])
    | .ok _ =>
      match srv.getBoxesRes with
      | .error e => (errLF e, [.connect, .getBoxes, .endCmd])
      | .ok boxes =>
        let folders := flattenMailboxes boxes ""
        ({ success := true, account := some account,
           folders := some (folders.map (fun f => f.name)),
           count := some folders.length, error := none },
         [.connect, .getBoxes, .endCmd])

/-- One email entry of the `imap_list_emails` report: header fields looked
up from the lowercased parsed headers. -/
structure EmailOut where
  uid : Nat
  sender : Option String
  subject : Option String
  date : Option String
  messageId : Option String
  flags : List String
deriving Repr, DecidableEq

/-- Report of `imap_list_emails`. -/
structure ListEmailsReport where
  success : Bool
  account : Option String
  folder : Option String
  total : Option Nat
  returned : Option Nat
  emails : Option (List EmailOut)
  error : Option String
deriving Repr, DecidableEq

def errLE (e : String) : ListEmailsReport :=
  { success := false, account := none, folder := none, total := none,
    returned := none, emails := none, error := some e }

def emailToOut (e : FetchedEmail) : EmailOut :=
  { uid := e.uid, sender := e.headers.lookup "from",
    subject := e.headers.lookup "subject", date := e.headers.lookup "date",
    messageId := e.headers.lookup "message-id", flags := e.flags }

/-- JS `uids.slice(-limit)`: the last `limit` elements; `slice(-0)` is the
whole array. -/
def sliceLast (uids : List Nat) (limit : Nat) : List Nat :=
  if limit = 0 then uids else uids.drop (uids.length - limit)

/-- src/server.mjs tool `imap_list_emails`: connect, open the folder
read-only, search, fetch the last `limit` uids (the fetch helper resolves to
`[]` without issuing a fetch when the uid list is empty), close. -/
def imap_list_emails (accounts : AccountTable) (srv : ImapServer)
    (account folder : String) (limit : Nat) (criteria : String) :
    ListEmailsReport × List Cmd :=
  match createImapConnection accounts account with
  | .error e => (errLE e, [])
  | .ok _ =>
  match srv.connectRes with
  | .error e => (errLE e, [.connect, .endCmd])
  | .ok _ =>
  match srv.openBoxRes folder true with
  | .error e => (errLE e, [.connect, .openB folder true, .endCmd])
  | .ok _ =>
  let crit := if criteria = "ALL" then SearchCriteria.all
              else SearchCriteria.single criteria
  match srv.searchRes crit with
  | .error e =>
    (errLE e, [.connect, .openB folder true, .searchCmd crit, .endCmd])
  | .ok uids =>
  let limitedUids := sliceLast uids limit
  if limitedUids.isEmpty then
    ({ success := true, account := some account, folder := some folder,
       total := some uids.length, returned := some 0, emails := some [],
       error := none },
     [.connect, .openB folder true, .searchCmd crit, .endCmd])
  else
    match srv.fetchRes limitedUids with
    | .error e =>
      (errLE e, [.connect, .openB folder true, .searchCmd crit,
                 .fetchCmd limitedUids, .endCmd])
    | .ok emails =>
      ({ success := true, account := some account, folder := some folder,
         total := some uids.length, returned := some emails.length,
         emails := some (emails.map emailToOut), error := none },
       [.connect, .openB folder true, .searchCmd crit,
        .fetchCmd limitedUids, .endCmd])

/-- Report of `imap_move_email`. -/
structure MoveEmailReport where
  success : Bool
  account : Option String
  action : Option String
  uid : Option Nat
  fromFolder : Option String
  toFolder : Option String
  error : Option String
deriving Repr, DecidableEq

def errME (e : String) : MoveEmailReport :=
  { success := false, account := none, action := none, uid := none,
    fromFolder := none, toFolder := none, error := some e }

/-- src/server.mjs tool `imap_move_email`: connect, open the source folder
read-write, issue one move, close. -/
def imap_move_email (accounts : AccountTable) (srv : ImapServer)
    (account sourceFolder : String) (uid : Nat) (targetFolder : String) :
    MoveEmailReport × List Cmd :=
  match createImapConnection accounts account with
  | .error e => (errME e, [])
  | .ok _ =>
  match srv.connectRes with
  | .error e => (errME e, [.connect, .endCmd])
  | .ok _ =>
  match srv.openBoxRes sourceFolder false with
  | .error e => (errME e, [.connect, .openB sourceFolder false, .endCmd])
  | .ok _ =>
  match srv.moveRes uid targetFolder with
  | .error e =>
    (errME e, [.connect, .openB sourceFolder false,
               .moveCmd uid targetFolder, .endCmd])
  | .ok _ =>
    ({ success := true, account := some account, action := some "moved",
       uid := some uid, fromFolder := some sourceFolder,
       toFolder := some targetFolder, error := none },
     [.connect, .openB sourceFolder false, .moveCmd uid targetFolder,
      .endCmd])

/-- Report of `imap_move_by_message_id`. The zero-match branch and the catch
branch emit only `success` and `error`. -/
structure MoveByMidReport where
  success : Bool
  account : Option String
  action : Option String
  messageId : Option String
  uid : Option Nat
  fromFolder : Option String
  toFolder : Option String
  error : Option String
deriving Repr, DecidableEq

def errMM (e : String) : MoveByMidReport :=
  { success := false, account := none, action := none, messageId := none,
    uid := none, fromFolder := none, toFolder := none, error := some e }

/-- src/server.mjs tool `imap_move_by_message_id`: connect, open the source
folder read-write, search `HEADER MESSAGE-ID`, then either report the
not-found failure on zero matches, or move the first matching uid. The
not-found message is `Email with Message-ID mid not found in folder` (quote
characters elided). -/
def imap_move_by_message_id (accounts : AccountTable) (srv : ImapServer)
    (account sourceFolder messageId targetFolder : String) :
    MoveByMidReport × List Cmd :=
  match createImapConnection accounts account with
  | .error e => (errMM e, [])
  | .ok _ =>
  match srv.connectRes with
  | .error e => (errMM e, [.connect, .endCmd])
  | .ok _ =>
  match srv.openBoxRes sourceFolder false with
  | .error e => (errMM e, [.connect, .openB sourceFolder false, .endCmd])
  | .ok _ =>
  match srv.searchRes (.headerMessageId messageId) with
  | .error e =>
    (errMM e, [.connect, .openB sourceFolder false,
               .searchCmd (.headerMessageId messageId), .endCmd])
  | .ok [] =>
    (errMM ("Email with Message-ID " ++ messageId ++ " not found in "
            ++ sourceFolder),
     [.connect, .openB sourceFolder false,
      .searchCmd (.headerMessageId messageId), .endCmd])
  | .ok (uid :: _) =>
    match srv.moveRes uid targetFolder with
    | .error e =>
      (errMM e, [.connect, .openB sourceFolder false,
                 .searchCmd (.headerMessageId messageId),
                 .moveCmd uid targetFolder, .endCmd])
    | .ok _ =>
      ({ success := true, account := some account, action := some "moved",
         messageId := some messageId, uid := some uid,
         fromFolder := some sourceFolder, toFolder := some targetFolder,
         error := none },
       [.connect, .openB sourceFolder false,
        .searchCmd (.headerMessageId messageId),
        .moveCmd uid targetFolder, .endCmd])

/-- Report of `imap_delete_email`. -/
structure DeleteEmailReport where
  success : Bool
  account : Option String
  action : Option String
  uid : Option Nat
  folder : Option String
  error : Option String
deriving Repr, DecidableEq

def errDE (e : String) : DeleteEmailReport :=
  { success := false, account := none, action := none, uid := none,
    folder := none, error := some e }

/-- src/server.mjs tool `imap_delete_email`: connect, open the folder
read-write, then the delete helper adds the Deleted flag to the uid and
expunges, close. -/
def imap_delete_email (accounts : AccountTable) (srv : ImapServer)
    (account folder : String) (uid : Nat) : DeleteEmailReport × List Cmd :=
  match createImapConnection accounts account with
  | .error e => (errDE e, [])
  | .ok _ =>
  match srv.connectRes with
  | .error e => (errDE e, [.connect, .endCmd])
  | .ok _ =>
  match srv.openBoxRes folder false with
  | .error e => (errDE e, [.connect, .openB folder false, .endCmd])
  | .ok _ =>
  match srv.addFlagsRes [uid] ["\\Deleted"] with
  | .error e =>
    (errDE e, [.connect, .openB folder false,
               .addFlagsCmd [uid] ["\\Deleted"], .endCmd])
  | .ok _ =>
  match srv.expungeRes with
  | .error e =>
    (errDE e, [.connect, .openB folder false,
               .addFlagsCmd [uid] ["\\Deleted"], .expungeCmd, .endCmd])
  | .ok _ =>
    ({ success := true, account := some account, action := some "deleted",
       uid := some uid, folder := some folder, error := none },
     [.connect, .openB folder false, .addFlagsCmd [uid] ["\\Deleted"],
      .expungeCmd, .endCmd])

/-- One per-item entry of the bulk-move result list. -/
structure ItemResult where
  uid : Nat
  success : Bool
  error : Option String
deriving Repr, DecidableEq

/-- Report of `imap_bulk_move`. The success branch does not echo the source
folder (the JSON has no such field) and never carries an error. -/
structure BulkMoveReport where
  success : Bool
  account : Option String
  action : Option String
  targetFolder : Option String
  total : Option Nat
  succeeded : Option Nat
  failed : Option Nat
  results : Option (List ItemResult)
  error : Option String
deriving Repr, DecidableEq

def errBM (e : String) : BulkMoveReport :=
  { success := false, account := none, action := none, targetFolder := none,
    total := none, succeeded := none, failed := none, results := none,
    error := some e }

/-- The per-uid loop of `imap_bulk_move`: one move attempt per uid, each
rejection caught and recorded in that uid's entry. Returns the ordered
per-item results and the commands issued by the loop. -/
def bulkMoveLoop (srv : ImapServer) (targetFolder : String) :
    List Nat → List ItemResult × List Cmd
  | [] => ([], [])
  | uid :: rest =>
    let entry : ItemResult :=
      match srv.moveRes uid targetFolder with
      | .ok _ => { uid := uid, success := true, error := none }
      | .error e => { uid := uid, success := false, error := some e }
    let tail := bulkMoveLoop srv targetFolder rest
    (entry :: tail.1, .moveCmd uid targetFolder :: tail.2)

/-- src/server.mjs tool `imap_bulk_move`: connect, open the source folder
read-write, run the per-uid loop, close, and report overall success with
counts. There is no size check on `uids` anywhere in the handler. -/
def imap_bulk_move (accounts : AccountTable) (srv : ImapServer)
    (account sourceFolder : String) (uids : List Nat)
    (targetFolder : String) : BulkMoveReport × List Cmd :=
  match createImapConnection accounts account with
  | .error e => (errBM e, [])
  | .ok _ =>
  match srv.connectRes with
  | .error e => (errBM e, [.connect, .endCmd])
  | .ok _ =>
  match srv.openBoxRes sourceFolder false with
  | .error e => (errBM e, [.connect, .openB sourceFolder false, .endCmd])
  | .ok _ =>
  let loop := bulkMoveLoop srv targetFolder uids
  let successCount := (loop.1.filter (fun r => r.success)).length
  ({ success := true, account := some account, action := some "bulk_move",
     targetFolder := some targetFolder, total := some uids.length,
     succeeded := some successCount,
     failed := some (uids.length - successCount),
     results := some loop.1, error := none },
   [.connect, .openB sourceFolder false] ++ loop.2 ++ [.endCmd])

/-- The `uids` field echoed by `imap_mark_unseen`: the literal list when it
has at most 50 entries, otherwise a truncation notice carrying the count. -/
inductive UidsEcho where
  | list (uids : List Nat)
  | truncated (count : Nat)
deriving Repr, DecidableEq

/-- Report of `imap_mark_unseen`. -/
structure MarkUnseenReport where
  success : Bool
  account : Option String
  folder : Option String
  message : Option String
  action : Option String
  count : Option Nat
  uidsEcho : Option UidsEcho
  error : Option String
deriving Repr, DecidableEq

def errMU (e : String) : MarkUnseenReport :=
  { success := false, account := none, folder := none, message := none,
    action := none, count := none, uidsEcho := none, error := some e }

/-- JS test `all || !uids || uids.length === 0` deciding whether
`imap_mark_unseen` searches the folder for its targets. -/
def useSearchAll (allFlag : Bool) (uids : Option (List Nat)) : Bool :=
  allFlag || (match uids with | none => true | some l => l.isEmpty)

/-- Tail of `imap_mark_unseen` after the target uids are known: the empty
list short-circuits to a count-zero success without a flag command;
otherwise one `delFlags targetUids [Seen]` round-trip is issued. `base` is
the trace accumulated so far. -/
def markUnseenFinish (srv : ImapServer) (account folder : String)
    (base : List Cmd) (targetUids : List Nat) : MarkUnseenReport × List Cmd :=
  if targetUids.isEmpty then
    ({ success := true, account := some account, folder := some folder,
       message := some "No emails to mark as unseen", action := none,
       count := some 0, uidsEcho := none, error := none },
     base ++ [.endCmd])
  else
    match srv.delFlagsRes targetUids ["\\Seen"] with
    | .error e =>
      (errMU e, base ++ [.delFlagsCmd targetUids ["\\Seen"], .endCmd])
    | .ok _ =>
      ({ success := true, account := some account, folder := some folder,
         message := none, action := some "marked_unseen",
         count := some targetUids.length,
         uidsEcho := some (if targetUids.length ≤ 50 then .list targetUids
                           else .truncated targetUids.length),
         error := none },
       base ++ [.delFlagsCmd targetUids ["\\Seen"], .endCmd])

/-- src/server.mjs tool `imap_mark_unseen`: connect, open the folder
read-write; when `all` is set or the caller supplied no (or an empty) uid
list, search ALL to collect the targets; then `markUnseenFinish`. -/
def imap_mark_unseen (accounts : AccountTable) (srv : ImapServer)
    (account folder : String) (uids : Option (List Nat)) (allFlag : Bool) :
    MarkUnseenReport × List Cmd :=
  match createImapConnection accounts account with
  | .error e => (errMU e, [])
  | .ok _ =>
  match srv.connectRes with
  | .error e => (errMU e, [.connect, .endCmd])
  | .ok _ =>
  match srv.openBoxRes folder false with
  | .error e => (errMU e, [.connect, .openB folder false, .endCmd])
  | .ok _ =>
  if useSearchAll allFlag uids then
    match srv.searchRes .all with
    | .error e =>
      (errMU e, [.connect, .openB folder false, .searchCmd .all, .endCmd])
    | .ok found =>
      markUnseenFinish srv account folder
        [.connect, .openB folder false, .searchCmd .all] found
  else
    markUnseenFinish srv account folder [.connect, .openB folder false]
      (uids.getD [])

/-! Trace predicates. -/

/-- Commands that mutate the selected mailbox: move, flag changes, expunge. -/
def isMutation : Cmd → Bool
  | .moveCmd _ _ => true
  | .addFlagsCmd _ _ => true
  | .delFlagsCmd _ _ => true
  | .expungeCmd => true
  | _ => false

def isMove : Cmd → Bool
  | .moveCmd _ _ => true
  | _ => false

/-- Commands that change flags (add or remove). -/
def isFlagCmd : Cmd → Bool
  | .addFlagsCmd _ _ => true
  | .delFlagsCmd _ _ => true
  | _ => false

/-- An open of a mailbox in read-write mode (`readOnly = false`). -/
def isRWOpen : Cmd → Bool
  | .openB _ false => true
  | _ => false

def mutationCmds (tr : List Cmd) : List Cmd := tr.filter isMutation

def moveCmds (tr : List Cmd) : List Cmd := tr.filter isMove

def flagCmds (tr : List Cmd) : List Cmd := tr.filter isFlagCmd

/-- Number of `imap.end()` calls in a trace. -/
def countClose : List Cmd → Nat
  | [] => 0
  | c :: rest => (if c = Cmd.endCmd then 1 else 0) + countClose rest

/-- Scans a trace: every mutation command must come strictly after some
read-write open; `opened` records whether one has been seen so far. -/
def rwGuard : Bool → List Cmd → Bool
  | _, [] => true
  | opened, c :: rest =>
    if isMutation c then opened && rwGuard (opened || isRWOpen c) rest
    else rwGuard (opened || isRWOpen c) rest

/-- Every mutation in the trace is preceded by a read-write open. -/
def mutOnlyAfterRWOpen (tr : List Cmd) : Bool := rwGuard false tr

/-! Concrete fixtures used by witnesses and counterexamples. -/

def accA : Account :=
  { name := "A", host := "imap.example.org", port := 993,
    user := some "u", password := some "p", tls := true }

def cfgA : AccountTable := [("a", accA)]

/-- An oracle on which every protocol call succeeds with empty data. -/
def srvOk : ImapServer :=
  { connectRes := .ok ()
  , openBoxRes := fun _ _ => .ok ()
  , getBoxesRes := .ok []
  , searchRes := fun _ => .ok []
  , moveRes := fun _ _ => .ok ()
  , addFlagsRes := fun _ _ => .ok ()
  , delFlagsRes := fun _ _ => .ok ()
  , expungeRes := .ok ()
  , fetchRes := fun _ => .ok [] }

/-- An oracle whose transport connect is refused. -/
def srvConnFail : ImapServer :=
  { srvOk with connectRes := .error "connect ECONNREFUSED" }

/-- An oracle on which moving uid 999 is rejected and every other protocol
call succeeds. -/
def srvMixed : ImapServer :=
  { srvOk with moveRes := fun u _ =>
      if u = 999 then .error "No matching messages" else .ok () }

/-- An oracle whose searches find uids 7 and 8 (in that order). -/
def srvTwoMatches : ImapServer :=
  { srvOk with searchRes := fun _ => .ok [7, 8] }

def uids101 : List Nat := List.range 101

/-! Helper lemmas. -/

theorem append_ne_empty (p q : String) (hp : p ≠ "") : p ++ q ≠ "" := by
  intro h
  apply hp
  have hd : (p ++ q).data = ("" : String).data := congrArg String.data h
  simp [String.data_append] at hd
  exact String.ext (by simp [hd.1])

theorem bulkMoveLoop_fst_length (srv : ImapServer) (tgt : String)
    (uids : List Nat) : (bulkMoveLoop srv tgt uids).1.length = uids.length := by
  induction uids with
  | nil => simp [bulkMoveLoop]
  | cons u rest ih => simp [bulkMoveLoop, ih]

theorem bulkMoveLoop_fst_uids (srv : ImapServer) (tgt : String)
    (uids : List Nat) :
    (bulkMoveLoop srv tgt uids).1.map (fun r => r.uid) = uids := by
  induction uids with
  | nil => simp [bulkMoveLoop]
  | cons u rest ih =>
    rcases h : srv.moveRes u tgt with e | v <;> simp [bulkMoveLoop, h, ih]

theorem bulkMoveLoop_snd (srv : ImapServer) (tgt : String) (uids : List Nat) :
    (bulkMoveLoop srv tgt uids).2 = uids.map (fun u => Cmd.moveCmd u tgt) := by
  induction uids with
  | nil => simp [bulkMoveLoop]
  | cons u rest ih => simp [bulkMoveLoop, ih]

theorem countClose_append (a b : List Cmd) :
    countClose (a ++ b) = countClose a + countClose b := by
  induction a with
  | nil => simp [countClose]
  | cons c rest ih => simp [countClose, ih]; omega

theorem countClose_moveList (tgt : String) (uids : List Nat) :
    countClose (uids.map (fun u => Cmd.moveCmd u tgt)) = 0 := by
  induction uids with
  | nil => simp [countClose]
  | cons u rest ih => simp [countClose, ih]

theorem rwGuard_moveList (tgt : String) (uids : List Nat) (rest : List Cmd) :
    rwGuard true (uids.map (fun u => Cmd.moveCmd u tgt) ++ rest) =
      rwGuard true rest := by
  induction uids with
  | nil => simp
  | cons u us ih => simp [rwGuard, isMutation, isRWOpen, ih]

/-- The JS truthiness of an accumulated path prefix, as an optional parent
path: the empty string plays the role of no parent. -/
def optOfString (s : String) : Option String :=
  if s = "" then none else some s

theorem flatten_spec_aux :
    ∀ (n : Nat) (boxes : List (String × MailboxNode)), sizeOf boxes ≤ n →
    ∀ (pfx : String), namesOk boxes = true →
    flattenMailboxes boxes pfx = specFlatten (optOfString pfx) boxes := by
  intro n
  induction n with
  | zero =>
    intro boxes hb
    cases boxes with
    | nil => intro pfx h2; simp [flattenMailboxes, specFlatten]
    | cons hd rest => simp at hb
  | succ m ih =>
    intro boxes hb pfx hn
    cases boxes with
    | nil => simp [flattenMailboxes, specFlatten]
    | cons hd rest =>
      rcases hd with ⟨name, nd⟩
      rcases nd with ⟨d, a, c⟩
      simp only [namesOk, Bool.and_eq_true, decide_eq_true_eq] at hn
      obtain ⟨⟨hname, hnc⟩, hnr⟩ := hn
      simp only [List.cons.sizeOf_spec, Prod.mk.sizeOf_spec,
        MailboxNode.node.sizeOf_spec] at hb
      have hbc : sizeOf c ≤ m := by omega
      have hbr : sizeOf rest ≤ m := by omega
      by_cases hp : pfx = ""
      · subst hp
        have hfull : optOfString name = some name := by
          simp [optOfString, hname]
        simp only [flattenMailboxes, specFlatten, optOfString, specFullPath,
          if_neg (by simp : ¬ ("" : String) ≠ "")]
        rw [ih c hbc name hnc, ih rest hbr "" hnr, hfull]
        simp [optOfString]
      · have hfn : pfx ++ d ++ name ≠ "" :=
          append_ne_empty (pfx ++ d) name (append_ne_empty pfx d hp)
        have hfull : optOfString (pfx ++ d ++ name) = some (pfx ++ d ++ name) := by
          simp [optOfString, hfn]
        simp only [flattenMailboxes, specFlatten, specFullPath,
          if_pos hp]
        rw [ih c hbc (pfx ++ d ++ name) hnc, ih rest hbr pfx hnr, hfull]
        simp [optOfString, hp]

theorem lf_close (accounts : AccountTable) (srv : ImapServer)
    (account : String) (h : (createImapConnection accounts account).isOk = true) :
    countClose (imap_list_folders accounts srv account).2 = 1 := by
  rcases hcr : createImapConnection accounts account with e | conn
  · rw [hcr] at h; simp [Except.isOk, Except.toBool] at h
  · rcases hc : srv.connectRes with e | u
    · simp [imap_list_folders, hcr, hc, countClose]
    · rcases hbx : srv.getBoxesRes with e | bs <;>
        simp [imap_list_folders, hcr, hc, hbx, countClose]

theorem le_close (accounts : AccountTable) (srv : ImapServer)
    (account folder : String) (limit : Nat) (criteria : String)
    (h : (createImapConnection accounts account).isOk = true) :
    countClose (imap_list_emails accounts srv account folder limit criteria).2
      = 1 := by
  rcases hcr : createImapConnection accounts account with e | conn
  · rw [hcr] at h; simp [Except.isOk, Except.toBool] at h
  · rcases hc : srv.connectRes with e | u
    · simp [imap_list_emails, hcr, hc, countClose]
    · rcases hob : srv.openBoxRes folder true with e | u2
      · simp [imap_list_emails, hcr, hc, hob, countClose]
      · rcases hs : srv.searchRes (if criteria = "ALL" then SearchCriteria.all
            else SearchCriteria.single criteria) with e | uids
        · simp [imap_list_emails, hcr, hc, hob, hs, countClose]
        · by_cases he : (sliceLast uids limit).isEmpty
          · simp [imap_list_emails, hcr, hc, hob, hs, he, countClose]
          · rcases hf : srv.fetchRes (sliceLast uids limit) with e | emails <;>
              simp [imap_list_emails, hcr, hc, hob, hs, he, hf, countClose]

theorem me_close (accounts : AccountTable) (srv : ImapServer)
    (account sourceFolder : String) (uid : Nat) (targetFolder : String)
    (h : (createImapConnection accounts account).isOk = true) :
    countClose
      (imap_move_email accounts srv account sourceFolder uid targetFolder).2
      = 1 := by
  rcases hcr : createImapConnection accounts account with e | conn
  · rw [hcr] at h; simp [Except.isOk, Except.toBool] at h
  · rcases hc : srv.connectRes with e | u
    · simp [imap_move_email, hcr, hc, countClose]
    · rcases hob : srv.openBoxRes sourceFolder false with e | u2
      · simp [imap_move_email, hcr, hc, hob, countClose]
      · rcases hm : srv.moveRes uid targetFolder with e | u3 <;>
          simp [imap_move_email, hcr, hc, hob, hm, countClose]

theorem mm_close (accounts : AccountTable) (srv : ImapServer)
    (account sourceFolder messageId targetFolder : String)
    (h : (createImapConnection accounts account).isOk = true) :
    countClose (imap_move_by_message_id accounts srv account sourceFolder
      messageId targetFolder).2 = 1 := by
  rcases hcr : createImapConnection accounts account with e | conn
  · rw [hcr] at h; simp [Except.isOk, Except.toBool] at h
  · rcases hc : srv.connectRes with e | u
    · simp [imap_move_by_message_id, hcr, hc, countClose]
    · rcases hob : srv.openBoxRes sourceFolder false with e | u2
      · simp [imap_move_by_message_id, hcr, hc, hob, countClose]
      · rcases hs : srv.searchRes (.headerMessageId messageId) with e | uids
        · simp [imap_move_by_message_id, hcr, hc, hob, hs, countClose]
        · cases uids with
          | nil => simp [imap_move_by_message_id, hcr, hc, hob, hs, countClose]
          | cons u1 rest =>
            rcases hm : srv.moveRes u1 targetFolder with e | u3 <;>
              simp [imap_move_by_message_id, hcr, hc, hob, hs, hm, countClose]

theorem de_close (accounts : AccountTable) (srv : ImapServer)
    (account folder : String) (uid : Nat)
    (h : (createImapConnection accounts account).isOk = true) :
    countClose (imap_delete_email accounts srv account folder uid).2 = 1 := by
  rcases hcr : createImapConnection accounts account with e | conn
  · rw [hcr] at h; simp [Except.isOk, Except.toBool] at h
  · rcases hc : srv.connectRes with e | u
    · simp [imap_delete_email, hcr, hc, countClose]
    · rcases hob : srv.openBoxRes folder false with e | u2
      · simp [imap_delete_email, hcr, hc, hob, countClose]
      · rcases ha : srv.addFlagsRes [uid] ["\\Deleted"] with e | u3
        · simp [imap_delete_email, hcr, hc, hob, ha, countClose]
        · rcases hx : srv.expungeRes with e | u4 <;>
            simp [imap_delete_email, hcr, hc, hob, ha, hx, countClose]

theorem bm_close (accounts : AccountTable) (srv : ImapServer)
    (account sourceFolder : String) (uids : List Nat) (targetFolder : String)
    (h : (createImapConnection accounts account).isOk = true) :
    countClose
      (imap_bulk_move accounts srv account sourceFolder uids targetFolder).2
      = 1 := by
  rcases hcr : createImapConnection accounts account with e | conn
  · rw [hcr] at h; simp [Except.isOk, Except.toBool] at h
  · rcases hc : srv.connectRes with e | u
    · simp [imap_bulk_move, hcr, hc, countClose]
    · rcases hob : srv.openBoxRes sourceFolder false with e | u2
      · simp [imap_bulk_move, hcr, hc, hob, countClose]
      · simp only [imap_bulk_move, hcr, hc, hob]
        rw [countClose_append, countClose_append, bulkMoveLoop_snd,
          countClose_moveList]
        simp [countClose]

theorem mu_finish_close (srv : ImapServer) (account folder : String)
    (base : List Cmd) (targetUids : List Nat) :
    countClose (markUnseenFinish srv account folder base targetUids).2 =
      countClose base + 1 := by
  by_cases he : targetUids.isEmpty
  · simp [markUnseenFinish, he, countClose_append, countClose]
  · rcases hd : srv.delFlagsRes targetUids ["\\Seen"] with e | u <;>
      simp [markUnseenFinish, he, hd, countClose_append, countClose]

theorem mu_close (accounts : AccountTable) (srv : ImapServer)
    (account folder : String) (uids : Option (List Nat)) (allFlag : Bool)
    (h : (createImapConnection accounts account).isOk = true) :
    countClose (imap_mark_unseen accounts srv account folder uids allFlag).2
      = 1 := by
  rcases hcr : createImapConnection accounts account with e | conn
  · rw [hcr] at h; simp [Except.isOk, Except.toBool] at h
  · rcases hc : srv.connectRes with e | u
    · simp [imap_mark_unseen, hcr, hc, countClose]
    · rcases hob : srv.openBoxRes folder false with e | u2
      · simp [imap_mark_unseen, hcr, hc, hob, countClose]
      · by_cases hall : useSearchAll allFlag uids
        · rcases hs : srv.searchRes .all with e | found
          · simp [imap_mark_unseen, hcr, hc, hob, hall, hs, countClose]
          · simp [imap_mark_unseen, hcr, hc, hob, hall, hs, mu_finish_close,
              countClose]
        · simp [imap_mark_unseen, hcr, hc, hob, hall, mu_finish_close,
            countClose]

theorem moveCmds_moveList (tgt : String) (uids : List Nat) :
    (uids.map (fun u => Cmd.moveCmd u tgt)).filter isMove =
      uids.map (fun u => Cmd.moveCmd u tgt) := by
  induction uids with
  | nil => simp
  | cons u us ih => simp [isMove, ih]

/-! Claim theorems. -/

/-- C1 counterexample: a bulk-move call with 101 identifiers does not fail
with any TooManyItems error: the handler reports overall success with no
error, and issues one move command per identifier (101 protocol move
commands), besides connect and open. -/
theorem bulk_move_101_not_rejected :
    uids101.length = 101 ∧
    (imap_bulk_move cfgA srvOk "a" "INBOX" uids101 "Archive").1.success
      = true ∧
    (imap_bulk_move cfgA srvOk "a" "INBOX" uids101 "Archive").1.error
      = none ∧
    (moveCmds
      (imap_bulk_move cfgA srvOk "a" "INBOX" uids101 "Archive").2).length
      = 101 := by
  decide

/-- C1 (amended): the handler enforces no upper bound on the identifier
list: every bulk-move call on an opened session, of any length (in
particular above 100), is processed identically, reporting overall success
and issuing exactly one move command per identifier in input order. -/
theorem bulk_move_unbounded (accounts : AccountTable) (srv : ImapServer)
    (account sourceFolder : String) (uids : List Nat) (targetFolder : String)
    (hCreate : (createImapConnection accounts account).isOk = true)
    (hConn : srv.connectRes = .ok ())
    (hOpen : srv.openBoxRes sourceFolder false = .ok ()) :
    (imap_bulk_move accounts srv account sourceFolder uids
      targetFolder).1.success = true ∧
    (imap_bulk_move accounts srv account sourceFolder uids
      targetFolder).1.error = none ∧
    moveCmds
      (imap_bulk_move accounts srv account sourceFolder uids targetFolder).2
      = uids.map (fun u => Cmd.moveCmd u targetFolder) := by
  rcases hcr : createImapConnection accounts account with er | conn
  · rw [hcr] at hCreate; simp [Except.isOk, Except.toBool] at hCreate
  · refine ⟨by simp [imap_bulk_move, hcr, hConn, hOpen],
      by simp [imap_bulk_move, hcr, hConn, hOpen], ?_⟩
    simp only [imap_bulk_move, hcr, hConn, hOpen, moveCmds]
    rw [List.filter_append, List.filter_append, bulkMoveLoop_snd,
      moveCmds_moveList]
    simp [isMove]

/-- Witness for C1 (amended) at 101 identifiers on an all-ok oracle. -/
theorem bulk_move_unbounded_witness :
    (imap_bulk_move cfgA srvOk "a" "INBOX" uids101 "Trash").1.success
      = true ∧
    (imap_bulk_move cfgA srvOk "a" "INBOX" uids101 "Trash").1.error = none ∧
    moveCmds (imap_bulk_move cfgA srvOk "a" "INBOX" uids101 "Trash").2
      = uids101.map (fun u => Cmd.moveCmd u "Trash") :=
  bulk_move_unbounded cfgA srvOk "a" "INBOX" uids101 "Trash" (by decide)
    rfl rfl

/-- C3: a bulk-move call with N identifiers on an opened session reports
overall success whatever the per-item outcomes; its per-item list has
exactly N entries carrying the input identifiers in input order, and the
succeeded and failed counts sum to N. -/
theorem bulk_move_per_item (accounts : AccountTable) (srv : ImapServer)
    (account sourceFolder : String) (uids : List Nat) (targetFolder : String)
    (hCreate : (createImapConnection accounts account).isOk = true)
    (hConn : srv.connectRes = .ok ())
    (hOpen : srv.openBoxRes sourceFolder false = .ok ())
    (hN : uids.length ≤ 100) :
    (imap_bulk_move accounts srv account sourceFolder uids
      targetFolder).1.success = true ∧
    ∃ rs s f,
      (imap_bulk_move accounts srv account sourceFolder uids
        targetFolder).1.results = some rs ∧
      rs.length = uids.length ∧
      rs.map (fun r => r.uid) = uids ∧
      (imap_bulk_move accounts srv account sourceFolder uids
        targetFolder).1.succeeded = some s ∧
      (imap_bulk_move accounts srv account sourceFolder uids
        targetFolder).1.failed = some f ∧
      s + f = uids.length := by
  rcases hcr : createImapConnection accounts account with er | conn
  · rw [hcr] at hCreate; simp [Except.isOk, Except.toBool] at hCreate
  · refine ⟨by simp [imap_bulk_move, hcr, hConn, hOpen],
      (bulkMoveLoop srv targetFolder uids).1,
      ((bulkMoveLoop srv targetFolder uids).1.filter
        (fun r => r.success)).length,
      uids.length - ((bulkMoveLoop srv targetFolder uids).1.filter
        (fun r => r.success)).length,
      by simp [imap_bulk_move, hcr, hConn, hOpen],
      bulkMoveLoop_fst_length srv targetFolder uids,
      bulkMoveLoop_fst_uids srv targetFolder uids,
      by simp [imap_bulk_move, hcr, hConn, hOpen],
      by simp [imap_bulk_move, hcr, hConn, hOpen], ?_⟩
    have hle := List.length_filter_le (fun r : ItemResult => r.success)
      (bulkMoveLoop srv targetFolder uids).1
    rw [bulkMoveLoop_fst_length] at hle
    omega

/-- Witness for C3: three identifiers of which the third is rejected by the
server; the report still shows overall success with three ordered entries
and counts summing to three. -/
theorem bulk_move_per_item_witness :
    (imap_bulk_move cfgA srvMixed "a" "INBOX" [101, 102, 999]
      "INBOX.Archive").1.success = true ∧
    ∃ rs s f,
      (imap_bulk_move cfgA srvMixed "a" "INBOX" [101, 102, 999]
        "INBOX.Archive").1.results = some rs ∧
      rs.length = [101, 102, 999].length ∧
      rs.map (fun r => r.uid) = [101, 102, 999] ∧
      (imap_bulk_move cfgA srvMixed "a" "INBOX" [101, 102, 999]
        "INBOX.Archive").1.succeeded = some s ∧
      (imap_bulk_move cfgA srvMixed "a" "INBOX" [101, 102, 999]
        "INBOX.Archive").1.failed = some f ∧
      s + f = [101, 102, 999].length :=
  bulk_move_per_item cfgA srvMixed "a" "INBOX" [101, 102, 999]
    "INBOX.Archive" (by decide) rfl rfl (by decide)

theorem lf_structured (accounts : AccountTable) (srv : ImapServer)
    (account : String) :
    ((imap_list_folders accounts srv account).1.success = true →
      (imap_list_folders accounts srv account).1.account = some account ∧
      (imap_list_folders accounts srv account).1.folders.isSome = true ∧
      (imap_list_folders accounts srv account).1.error = none) ∧
    ((imap_list_folders accounts srv account).1.success = false →
      (imap_list_folders accounts srv account).1.error.isSome = true ∧
      (imap_list_folders accounts srv account).1.account = none) := by
  rcases hcr : createImapConnection accounts account with er | conn
  · simp [imap_list_folders, hcr, errLF]
  · rcases hc : srv.connectRes with e | u
    · simp [imap_list_folders, hcr, hc, errLF]
    · rcases hbx : srv.getBoxesRes with e | bs <;>
        simp [imap_list_folders, hcr, hc, hbx, errLF]

theorem bm_structured (accounts : AccountTable) (srv : ImapServer)
    (account sourceFolder : String) (uids : List Nat) (targetFolder : String) :
    ((imap_bulk_move accounts srv account sourceFolder uids
        targetFolder).1.success = true →
      (imap_bulk_move accounts srv account sourceFolder uids
        targetFolder).1.account = some account ∧
      (imap_bulk_move accounts srv account sourceFolder uids
        targetFolder).1.targetFolder = some targetFolder ∧
      (imap_bulk_move accounts srv account sourceFolder uids
        targetFolder).1.results.isSome = true ∧
      (imap_bulk_move accounts srv account sourceFolder uids
        targetFolder).1.error = none) ∧
    ((imap_bulk_move accounts srv account sourceFolder uids
        targetFolder).1.success = false →
      (imap_bulk_move accounts srv account sourceFolder uids
        targetFolder).1.error.isSome = true ∧
      (imap_bulk_move accounts srv account sourceFolder uids
        targetFolder).1.account = none) := by
  rcases hcr : createImapConnection accounts account with er | conn
  · simp [imap_bulk_move, hcr, errBM]
  · rcases hc : srv.connectRes with e | u
    · simp [imap_bulk_move, hcr, hc, errBM]
    · rcases hob : srv.openBoxRes sourceFolder false with e | u2 <;>
        simp [imap_bulk_move, hcr, hc, hob, errBM]

theorem le_structured (accounts : AccountTable) (srv : ImapServer)
    (account folder : String) (limit : Nat) (criteria : String) :
    ((imap_list_emails accounts srv account folder limit
        criteria).1.success = true →
      (imap_list_emails accounts srv account folder limit
        criteria).1.account = some account ∧
      (imap_list_emails accounts srv account folder limit
        criteria).1.folder = some folder ∧
      (imap_list_emails accounts srv account folder limit
        criteria).1.emails.isSome = true ∧
      (imap_list_emails accounts srv account folder limit
        criteria).1.error = none) ∧
    ((imap_list_emails accounts srv account folder limit
        criteria).1.success = false →
      (imap_list_emails accounts srv account folder limit
        criteria).1.error.isSome = true ∧
      (imap_list_emails accounts srv account folder limit
        criteria).1.account = none) := by
  rcases hcr : createImapConnection accounts account with er | conn
  · simp [imap_list_emails, hcr, errLE]
  · rcases hc : srv.connectRes with e | u
    · simp [imap_list_emails, hcr, hc, errLE]
    · rcases hob : srv.openBoxRes folder true with e | u2
      · simp [imap_list_emails, hcr, hc, hob, errLE]
      · rcases hs : srv.searchRes (if criteria = "ALL" then
            SearchCriteria.all else SearchCriteria.single criteria)
            with e | uids
        · simp [imap_list_emails, hcr, hc, hob, hs, errLE]
        · by_cases he : (sliceLast uids limit).isEmpty
          · simp [imap_list_emails, hcr, hc, hob, hs, he, errLE]
          · rcases hf : srv.fetchRes (sliceLast uids limit)
                with e | emails <;>
              simp [imap_list_emails, hcr, hc, hob, hs, he, hf, errLE]

theorem me_structured (accounts : AccountTable) (srv : ImapServer)
    (account sourceFolder : String) (uid : Nat) (targetFolder : String) :
    ((imap_move_email accounts srv account sourceFolder uid
        targetFolder).1.success = true →
      (imap_move_email accounts srv account sourceFolder uid
        targetFolder).1.account = some account ∧
      (imap_move_email accounts srv account sourceFolder uid
        targetFolder).1.uid = some uid ∧
      (imap_move_email accounts srv account sourceFolder uid
        targetFolder).1.fromFolder = some sourceFolder ∧
      (imap_move_email accounts srv account sourceFolder uid
        targetFolder).1.toFolder = some targetFolder ∧
      (imap_move_email accounts srv account sourceFolder uid
        targetFolder).1.error = none) ∧
    ((imap_move_email accounts srv account sourceFolder uid
        targetFolder).1.success = false →
      (imap_move_email accounts srv account sourceFolder uid
        targetFolder).1.error.isSome = true ∧
      (imap_move_email accounts srv account sourceFolder uid
        targetFolder).1.account = none) := by
  rcases hcr : createImapConnection accounts account with er | conn
  · simp [imap_move_email, hcr, errME]
  · rcases hc : srv.connectRes with e | u
    · simp [imap_move_email, hcr, hc, errME]
    · rcases hob : srv.openBoxRes sourceFolder false with e | u2
      · simp [imap_move_email, hcr, hc, hob, errME]
      · rcases hm : srv.moveRes uid targetFolder with e | u3 <;>
          simp [imap_move_email, hcr, hc, hob, hm, errME]

theorem mm_structured (accounts : AccountTable) (srv : ImapServer)
    (account sourceFolder messageId targetFolder : String) :
    ((imap_move_by_message_id accounts srv account sourceFolder messageId
        targetFolder).1.success = true →
      (imap_move_by_message_id accounts srv account sourceFolder messageId
        targetFolder).1.account = some account ∧
      (imap_move_by_message_id accounts srv account sourceFolder messageId
        targetFolder).1.messageId = some messageId ∧
      (imap_move_by_message_id accounts srv account sourceFolder messageId
        targetFolder).1.uid.isSome = true ∧
      (imap_move_by_message_id accounts srv account sourceFolder messageId
        targetFolder).1.error = none) ∧
    ((imap_move_by_message_id accounts srv account sourceFolder messageId
        targetFolder).1.success = false →
      (imap_move_by_message_id accounts srv account sourceFolder messageId
        targetFolder).1.error.isSome = true ∧
      (imap_move_by_message_id accounts srv account sourceFolder messageId
        targetFolder).1.account = none) := by
  rcases hcr : createImapConnection accounts account with er | conn
  · simp [imap_move_by_message_id, hcr, errMM]
  · rcases hc : srv.connectRes with e | u
    · simp [imap_move_by_message_id, hcr, hc, errMM]
    · rcases hob : srv.openBoxRes sourceFolder false with e | u2
      · simp [imap_move_by_message_id, hcr, hc, hob, errMM]
      · rcases hs : srv.searchRes (.headerMessageId messageId) with e | uids
        · simp [imap_move_by_message_id, hcr, hc, hob, hs, errMM]
        · cases uids with
          | nil =>
            simp [imap_move_by_message_id, hcr, hc, hob, hs, errMM]
          | cons u1 rest =>
            rcases hm : srv.moveRes u1 targetFolder with e | u3 <;>
              simp [imap_move_by_message_id, hcr, hc, hob, hs, hm, errMM]

theorem de_structured (accounts : AccountTable) (srv : ImapServer)
    (account folder : String) (uid : Nat) :
    ((imap_delete_email accounts srv account folder uid).1.success = true →
      (imap_delete_email accounts srv account folder uid).1.account
        = some account ∧
      (imap_delete_email accounts srv account folder uid).1.uid
        = some uid ∧
      (imap_delete_email accounts srv account folder uid).1.folder
        = some folder ∧
      (imap_delete_email accounts srv account folder uid).1.error
        = none) ∧
    ((imap_delete_email accounts srv account folder uid).1.success
        = false →
      (imap_delete_email accounts srv account folder uid).1.error.isSome
        = true ∧
      (imap_delete_email accounts srv account folder uid).1.account
        = none) := by
  rcases hcr : createImapConnection accounts account with er | conn
  · simp [imap_delete_email, hcr, errDE]
  · rcases hc : srv.connectRes with e | u
    · simp [imap_delete_email, hcr, hc, errDE]
    · rcases hob : srv.openBoxRes folder false with e | u2
      · simp [imap_delete_email, hcr, hc, hob, errDE]
      · rcases ha : srv.addFlagsRes [uid] ["\\Deleted"] with e | u3
        · simp [imap_delete_email, hcr, hc, hob, ha, errDE]
        · rcases hx : srv.expungeRes with e | u4 <;>
            simp [imap_delete_email, hcr, hc, hob, ha, hx, errDE]

theorem mu_structured (accounts : AccountTable) (srv : ImapServer)
    (account folder : String) (uidsOpt : Option (List Nat))
    (allFlag : Bool) :
    ((imap_mark_unseen accounts srv account folder uidsOpt
        allFlag).1.success = true →
      (imap_mark_unseen accounts srv account folder uidsOpt
        allFlag).1.account = some account ∧
      (imap_mark_unseen accounts srv account folder uidsOpt
        allFlag).1.folder = some folder ∧
      (imap_mark_unseen accounts srv account folder uidsOpt
        allFlag).1.count.isSome = true ∧
      (imap_mark_unseen accounts srv account folder uidsOpt
        allFlag).1.error = none) ∧
    ((imap_mark_unseen accounts srv account folder uidsOpt
        allFlag).1.success = false →
      (imap_mark_unseen accounts srv account folder uidsOpt
        allFlag).1.error.isSome = true ∧
      (imap_mark_unseen accounts srv account folder uidsOpt
        allFlag).1.account = none) := by
  rcases hcr : createImapConnection accounts account with er | conn
  · simp [imap_mark_unseen, hcr, errMU]
  · rcases hc : srv.connectRes with e | u
    · simp [imap_mark_unseen, hcr, hc, errMU]
    · rcases hob : srv.openBoxRes folder false with e | u2
      · simp [imap_mark_unseen, hcr, hc, hob, errMU]
      · by_cases hall : useSearchAll allFlag uidsOpt
        · rcases hs : srv.searchRes .all with e | found
          · simp [imap_mark_unseen, hcr, hc, hob, hall, hs, errMU]
          · by_cases hemp : found.isEmpty
            · simp [imap_mark_unseen, hcr, hc, hob, hall, hs, hemp,
                markUnseenFinish, errMU]
            · rcases hd : srv.delFlagsRes found ["\\Seen"] with e | u3 <;>
                simp [imap_mark_unseen, hcr, hc, hob, hall, hs, hemp, hd,
                  markUnseenFinish, errMU]
        · by_cases hemp : (uidsOpt.getD []).isEmpty
          · simp [imap_mark_unseen, hcr, hc, hob, hall, hemp,
              markUnseenFinish, errMU]
          · rcases hd : srv.delFlagsRes (uidsOpt.getD []) ["\\Seen"]
                with e | u3 <;>
              simp [imap_mark_unseen, hcr, hc, hob, hall, hemp, hd,
                markUnseenFinish, errMU]

/-- C2 counterexample: when the transport connect is refused, the
list-folders report is the structured failure with only a success flag and
an error message: it does not echo the input account parameter (the field
is absent), contradicting the claim that every report contains the echoed
input parameters. -/
theorem error_report_drops_inputs :
    (imap_list_folders cfgA srvConnFail "a").1.success = false ∧
    (imap_list_folders cfgA srvConnFail "a").1.error
      = some "connect ECONNREFUSED" ∧
    (imap_list_folders cfgA srvConnFail "a").1.account = none ∧
    (imap_list_folders cfgA srvConnFail "a").1.account ≠ some "a" := by
  decide

/-- C2 (amended): every operation resolves to a structured report and never
an uncaught fault; a success report carries the echoed account together
with further echoed inputs and the result payload and no error, while a
failure report carries an error message but does not echo the input
parameters. Stated over all seven session-opening tool handlers. -/
theorem reports_always_structured (accounts : AccountTable)
    (srv : ImapServer)
    (account folder sourceFolder messageId targetFolder criteria : String)
    (uid limit : Nat) (uids : List Nat) (uidsOpt : Option (List Nat))
    (allFlag : Bool) :
    (((imap_list_folders accounts srv account).1.success = true →
      (imap_list_folders accounts srv account).1.account = some account ∧
      (imap_list_folders accounts srv account).1.folders.isSome = true ∧
      (imap_list_folders accounts srv account).1.error = none) ∧
    ((imap_list_folders accounts srv account).1.success = false →
      (imap_list_folders accounts srv account).1.error.isSome = true ∧
      (imap_list_folders accounts srv account).1.account = none)) ∧
    (((imap_list_emails accounts srv account folder limit
        criteria).1.success = true →
      (imap_list_emails accounts srv account folder limit
        criteria).1.account = some account ∧
      (imap_list_emails accounts srv account folder limit
        criteria).1.folder = some folder ∧
      (imap_list_emails accounts srv account folder limit
        criteria).1.emails.isSome = true ∧
      (imap_list_emails accounts srv account folder limit
        criteria).1.error = none) ∧
    ((imap_list_emails accounts srv account folder limit
        criteria).1.success = false →
      (imap_list_emails accounts srv account folder limit
        criteria).1.error.isSome = true ∧
      (imap_list_emails accounts srv account folder limit
        criteria).1.account = none)) ∧
    (((imap_move_email accounts srv account sourceFolder uid
        targetFolder).1.success = true →
      (imap_move_email accounts srv account sourceFolder uid
        targetFolder).1.account = some account ∧
      (imap_move_email accounts srv account sourceFolder uid
        targetFolder).1.uid = some uid ∧
      (imap_move_email accounts srv account sourceFolder uid
        targetFolder).1.fromFolder = some sourceFolder ∧
      (imap_move_email accounts srv account sourceFolder uid
        targetFolder).1.toFolder = some targetFolder ∧
      (imap_move_email accounts srv account sourceFolder uid
        targetFolder).1.error = none) ∧
    ((imap_move_email accounts srv account sourceFolder uid
        targetFolder).1.success = false →
      (imap_move_email accounts srv account sourceFolder uid
        targetFolder).1.error.isSome = true ∧
      (imap_move_email accounts srv account sourceFolder uid
        targetFolder).1.account = none)) ∧
    (((imap_move_by_message_id accounts srv account sourceFolder messageId
        targetFolder).1.success = true →
      (imap_move_by_message_id accounts srv account sourceFolder messageId
        targetFolder).1.account = some account ∧
      (imap_move_by_message_id accounts srv account sourceFolder messageId
        targetFolder).1.messageId = some messageId ∧
      (imap_move_by_message_id accounts srv account sourceFolder messageId
        targetFolder).1.uid.isSome = true ∧
      (imap_move_by_message_id accounts srv account sourceFolder messageId
        targetFolder).1.error = none) ∧
    ((imap_move_by_message_id accounts srv account sourceFolder messageId
        targetFolder).1.success = false →
      (imap_move_by_message_id accounts srv account sourceFolder messageId
        targetFolder).1.error.isSome = true ∧
      (imap_move_by_message_id accounts srv account sourceFolder messageId
        targetFolder).1.account = none)) ∧
    (((imap_delete_email accounts srv account folder uid).1.success
        = true →
      (imap_delete_email accounts srv account folder uid).1.account
        = some account ∧
      (imap_delete_email accounts srv account folder uid).1.uid
        = some uid ∧
      (imap_delete_email accounts srv account folder uid).1.folder
        = some folder ∧
      (imap_delete_email accounts srv account folder uid).1.error
        = none) ∧
    ((imap_delete_email accounts srv account folder uid).1.success
        = false →
      (imap_delete_email accounts srv account folder uid).1.error.isSome
        = true ∧
      (imap_delete_email accounts srv account folder uid).1.account
        = none)) ∧
    (((imap_bulk_move accounts srv account sourceFolder uids
        targetFolder).1.success = true →
      (imap_bulk_move accounts srv account sourceFolder uids
        targetFolder).1.account = some account ∧
      (imap_bulk_move accounts srv account sourceFolder uids
        targetFolder).1.targetFolder = some targetFolder ∧
      (imap_bulk_move accounts srv account sourceFolder uids
        targetFolder).1.results.isSome = true ∧
      (imap_bulk_move accounts srv account sourceFolder uids
        targetFolder).1.error = none) ∧
    ((imap_bulk_move accounts srv account sourceFolder uids
        targetFolder).1.success = false →
      (imap_bulk_move accounts srv account sourceFolder uids
        targetFolder).1.error.isSome = true ∧
      (imap_bulk_move accounts srv account sourceFolder uids
        targetFolder).1.account = none)) ∧
    (((imap_mark_unseen accounts srv account folder uidsOpt
        allFlag).1.success = true →
      (imap_mark_unseen accounts srv account folder uidsOpt
        allFlag).1.account = some account ∧
      (imap_mark_unseen accounts srv account folder uidsOpt
        allFlag).1.folder = some folder ∧
      (imap_mark_unseen accounts srv account folder uidsOpt
        allFlag).1.count.isSome = true ∧
      (imap_mark_unseen accounts srv account folder uidsOpt
        allFlag).1.error = none) ∧
    ((imap_mark_unseen accounts srv account folder uidsOpt
        allFlag).1.success = false →
      (imap_mark_unseen accounts srv account folder uidsOpt
        allFlag).1.error.isSome = true ∧
      (imap_mark_unseen accounts srv account folder uidsOpt
        allFlag).1.account = none)) :=
  ⟨lf_structured accounts srv account,
   le_structured accounts srv account folder limit criteria,
   me_structured accounts srv account sourceFolder uid targetFolder,
   mm_structured accounts srv account sourceFolder messageId targetFolder,
   de_structured accounts srv account folder uid,
   bm_structured accounts srv account sourceFolder uids targetFolder,
   mu_structured accounts srv account folder uidsOpt allFlag⟩

/-- Witness for C2 (amended): a success report echoes the account; failure
reports of several handlers carry an error and no echoed account. -/
theorem reports_always_structured_witness :
    ((imap_list_folders cfgA srvOk "a").1.account = some "a" ∧
      (imap_list_folders cfgA srvOk "a").1.folders.isSome = true ∧
      (imap_list_folders cfgA srvOk "a").1.error = none) ∧
    ((imap_list_folders cfgA srvConnFail "a").1.error.isSome = true ∧
      (imap_list_folders cfgA srvConnFail "a").1.account = none) ∧
    ((imap_delete_email cfgA srvConnFail "a" "INBOX" 5).1.error.isSome
       = true ∧
      (imap_delete_email cfgA srvConnFail "a" "INBOX" 5).1.account
       = none) ∧
    ((imap_mark_unseen cfgA srvOk "a" "INBOX" none true).1.account
       = some "a" ∧
      (imap_mark_unseen cfgA srvOk "a" "INBOX" none true).1.folder
       = some "INBOX" ∧
      (imap_mark_unseen cfgA srvOk "a" "INBOX" none true).1.count.isSome
       = true ∧
      (imap_mark_unseen cfgA srvOk "a" "INBOX" none true).1.error
       = none) :=
  ⟨(reports_always_structured cfgA srvOk "a" "INBOX" "INBOX" "m" "T" "ALL"
      5 20 [] none true).1.1 (by decide),
   (reports_always_structured cfgA srvConnFail "a" "INBOX" "INBOX" "m" "T"
      "ALL" 5 20 [] none true).1.2 (by decide),
   (reports_always_structured cfgA srvConnFail "a" "INBOX" "INBOX" "m" "T"
      "ALL" 5 20 [] none true).2.2.2.2.1.2 (by decide),
   (reports_always_structured cfgA srvOk "a" "INBOX" "INBOX" "m" "T" "ALL"
      5 20 [] none true).2.2.2.2.2.2.1 (by decide)⟩

/-- C4: a move-by-Message-ID call whose search finds zero matches returns a
structured failure (success flag false, not-found error message) and issues
no mutation command: no move, no flag change, no expunge. -/
theorem move_by_mid_zero_matches (accounts : AccountTable) (srv : ImapServer)
    (account sourceFolder messageId targetFolder : String)
    (hCreate : (createImapConnection accounts account).isOk = true)
    (hConn : srv.connectRes = .ok ())
    (hOpen : srv.openBoxRes sourceFolder false = .ok ())
    (hSearch : srv.searchRes (.headerMessageId messageId) = .ok []) :
    (imap_move_by_message_id accounts srv account sourceFolder messageId
      targetFolder).1.success = false ∧
    (imap_move_by_message_id accounts srv account sourceFolder messageId
      targetFolder).1.error = some ("Email with Message-ID " ++ messageId
        ++ " not found in " ++ sourceFolder) ∧
    mutationCmds (imap_move_by_message_id accounts srv account sourceFolder
      messageId targetFolder).2 = [] := by
  rcases hcr : createImapConnection accounts account with er | conn
  · rw [hcr] at hCreate; simp [Except.isOk, Except.toBool] at hCreate
  · simp [imap_move_by_message_id, hcr, hConn, hOpen, hSearch, errMM,
      mutationCmds, isMutation]

/-- Witness for C4 on an oracle whose searches all come back empty. -/
theorem move_by_mid_zero_matches_witness :
    (imap_move_by_message_id cfgA srvOk "a" "INBOX" "mid1"
      "Archive").1.success = false ∧
    (imap_move_by_message_id cfgA srvOk "a" "INBOX" "mid1"
      "Archive").1.error = some ("Email with Message-ID " ++ "mid1"
        ++ " not found in " ++ "INBOX") ∧
    mutationCmds (imap_move_by_message_id cfgA srvOk "a" "INBOX" "mid1"
      "Archive").2 = [] :=
  move_by_mid_zero_matches cfgA srvOk "a" "INBOX" "mid1" "Archive"
    (by decide) rfl rfl rfl

/-- C5: when the Message-ID search returns more than one match, exactly one
move command is issued, on the first identifier in search-result order; the
remaining matches are ignored, and a success report names that first
identifier. -/
theorem move_by_mid_first_only (accounts : AccountTable) (srv : ImapServer)
    (account sourceFolder messageId targetFolder : String)
    (u v : Nat) (rest : List Nat)
    (hCreate : (createImapConnection accounts account).isOk = true)
    (hConn : srv.connectRes = .ok ())
    (hOpen : srv.openBoxRes sourceFolder false = .ok ())
    (hSearch : srv.searchRes (.headerMessageId messageId)
      = .ok (u :: v :: rest)) :
    moveCmds (imap_move_by_message_id accounts srv account sourceFolder
      messageId targetFolder).2 = [Cmd.moveCmd u targetFolder] ∧
    ((imap_move_by_message_id accounts srv account sourceFolder messageId
      targetFolder).1.success = true →
      (imap_move_by_message_id accounts srv account sourceFolder messageId
        targetFolder).1.uid = some u) := by
  rcases hcr : createImapConnection accounts account with er | conn
  · rw [hcr] at hCreate; simp [Except.isOk, Except.toBool] at hCreate
  · rcases hm : srv.moveRes u targetFolder with e | u3 <;>
      simp [imap_move_by_message_id, hcr, hConn, hOpen, hSearch, hm,
        moveCmds, isMove, errMM]

/-- Witness for C5 on an oracle whose search finds uids 7 and 8: only uid 7
is moved. -/
theorem move_by_mid_first_only_witness :
    moveCmds (imap_move_by_message_id cfgA srvTwoMatches "a" "INBOX" "mid2"
      "Archive").2 = [Cmd.moveCmd 7 "Archive"] ∧
    ((imap_move_by_message_id cfgA srvTwoMatches "a" "INBOX" "mid2"
      "Archive").1.success = true →
      (imap_move_by_message_id cfgA srvTwoMatches "a" "INBOX" "mid2"
        "Archive").1.uid = some 7) :=
  move_by_mid_first_only cfgA srvTwoMatches "a" "INBOX" "mid2" "Archive"
    7 8 [] (by decide) rfl rfl rfl

/-- A folder forest whose root folder has the empty string as its name. -/
def emptyNameTree : List (String × MailboxNode) :=
  [("", .node "." [] [("c", .node "." [] [])])]

/-- A small realistic folder forest with nonempty names. -/
def sampleTree : List (String × MailboxNode) :=
  [("INBOX", .node "." ["\\HasChildren"]
     [("Archive", .node "." [] [("2024", .node "." [] [])]),
      ("Spam", .node "." [] [])])]

/-- C6 counterexample: on a tree whose root folder is named by the empty
string, the flattener records the child full path as the bare child name
(the accumulated prefix is falsy in JS), not as parent path + delimiter +
own name, so the flattening differs from the spec-side depth-first
flattening. -/
theorem flatten_empty_name_diverges :
    (flattenMailboxes emptyNameTree "").map (fun f => f.name) = ["", "c"] ∧
    (specFlatten none emptyNameTree).map (fun f => f.name) = ["", ".c"] ∧
    flattenMailboxes emptyNameTree "" ≠ specFlatten none emptyNameTree := by
  refine ⟨by simp [flattenMailboxes, emptyNameTree],
    by simp [specFlatten, emptyNameTree, specFullPath], ?_⟩
  intro h
  have hmap := congrArg
    (fun l => l.map (fun f : FolderDescriptor => f.name)) h
  simp [flattenMailboxes, specFlatten, emptyNameTree, specFullPath] at hmap

/-- C6 (amended): for every folder tree all of whose folder names are
nonempty, the flattener produces exactly the spec-side depth-first
flattening: descriptors in depth-first order, each parent immediately
before its children, children in server order, no reordering or
deduplication, and the full path of every descendant equal to its parent
full path joined with the delimiter and the own name. (A folder whose
computed full path is the empty string instead passes no prefix to its
children.) -/
theorem flatten_depth_first_spec (boxes : List (String × MailboxNode))
    (hn : namesOk boxes = true) :
    flattenMailboxes boxes "" = specFlatten none boxes := by
  have h := flatten_spec_aux (sizeOf boxes) boxes le_rfl "" hn
  simpa [optOfString] using h

/-- Witness for C6 (amended) on a three-level sample tree. -/
theorem flatten_depth_first_spec_witness :
    namesOk sampleTree = true ∧
    flattenMailboxes sampleTree "" = specFlatten none sampleTree :=
  ⟨by simp [namesOk, sampleTree],
   flatten_depth_first_spec sampleTree (by simp [namesOk, sampleTree])⟩

/-- C7: every session-opening operation closes its connection exactly once
on every exit path (success or failure at connect, open, list, search,
fetch, move, flag or expunge), and a connect failure aborts the remaining
steps of the operation, leaving only the connect attempt and the close in
the trace. Stated over all seven IMAP tool handlers. -/
theorem session_closed_exactly_once (accounts : AccountTable)
    (srv : ImapServer)
    (account folder sourceFolder messageId targetFolder criteria : String)
    (uid limit : Nat) (uids : List Nat) (uidsOpt : Option (List Nat))
    (allFlag : Bool)
    (h : (createImapConnection accounts account).isOk = true) :
    countClose (imap_list_folders accounts srv account).2 = 1 ∧
    countClose
      (imap_list_emails accounts srv account folder limit criteria).2 = 1 ∧
    countClose (imap_move_email accounts srv account sourceFolder uid
      targetFolder).2 = 1 ∧
    countClose (imap_move_by_message_id accounts srv account sourceFolder
      messageId targetFolder).2 = 1 ∧
    countClose (imap_delete_email accounts srv account folder uid).2 = 1 ∧
    countClose (imap_bulk_move accounts srv account sourceFolder uids
      targetFolder).2 = 1 ∧
    countClose
      (imap_mark_unseen accounts srv account folder uidsOpt allFlag).2 = 1 ∧
    (∀ e, srv.connectRes = .error e →
      (imap_list_folders accounts srv account).2
        = [Cmd.connect, Cmd.endCmd] ∧
      (imap_bulk_move accounts srv account sourceFolder uids targetFolder).2
        = [Cmd.connect, Cmd.endCmd]) := by
  refine ⟨lf_close accounts srv account h,
    le_close accounts srv account folder limit criteria h,
    me_close accounts srv account sourceFolder uid targetFolder h,
    mm_close accounts srv account sourceFolder messageId targetFolder h,
    de_close accounts srv account folder uid h,
    bm_close accounts srv account sourceFolder uids targetFolder h,
    mu_close accounts srv account folder uidsOpt allFlag h, ?_⟩
  intro e he
  rcases hcr : createImapConnection accounts account with er | conn
  · rw [hcr] at h; simp [Except.isOk, Except.toBool] at h
  · exact ⟨by simp [imap_list_folders, hcr, he],
      by simp [imap_bulk_move, hcr, he]⟩

/-- Witness for C7: close happens exactly once at a configured account on
an all-ok oracle, and on a refused connect the trace is connect then
close. -/
theorem session_closed_exactly_once_witness :
    countClose (imap_list_folders cfgA srvOk "a").2 = 1 ∧
    countClose (imap_bulk_move cfgA srvOk "a" "INBOX" [1, 2] "T").2 = 1 ∧
    (imap_list_folders cfgA srvConnFail "a").2
      = [Cmd.connect, Cmd.endCmd] :=
  ⟨(session_closed_exactly_once cfgA srvOk "a" "INBOX" "INBOX" "m" "T"
      "ALL" 1 20 [1, 2] none false (by decide)).1,
   (session_closed_exactly_once cfgA srvOk "a" "INBOX" "INBOX" "m" "T"
      "ALL" 1 20 [1, 2] none false (by decide)).2.2.2.2.2.2.1,
   ((session_closed_exactly_once cfgA srvConnFail "a" "INBOX" "INBOX" "m"
      "T" "ALL" 1 20 [1, 2] none false (by decide)).2.2.2.2.2.2.2
      "connect ECONNREFUSED" rfl).1⟩

/-- An account entry whose user is missing (unset environment variable). -/
def accNoUser : Account :=
  { name := "B", host := "imap.example.net", port := 993,
    user := none, password := some "p", tls := true }

def cfgTwo : AccountTable := [("a", accA), ("b", accNoUser)]

/-- C8: an account entry is configured exactly when both its user and its
password are truthy (present and nonempty): it appears in the
configured-accounts listing iff so, connection creation succeeds iff so,
and otherwise connection creation fails with the not-configured error. -/
theorem account_configured_iff (accounts : AccountTable) (key : String)
    (acc : Account) (hFind : lookupAccount accounts key = some acc) :
    ((key, acc) ∈ getConfiguredAccounts accounts ↔
      (truthyOpt acc.user && truthyOpt acc.password) = true) ∧
    ((createImapConnection accounts key).isOk = true ↔
      (truthyOpt acc.user && truthyOpt acc.password) = true) ∧
    ((truthyOpt acc.user && truthyOpt acc.password) = false →
      createImapConnection accounts key
        = .error ("Account " ++ key ++ " not configured")) := by
  rcases hF : accounts.find? (fun kv => kv.1 = key) with _ | kv
  · rw [lookupAccount, hF] at hFind; simp at hFind
  · rw [lookupAccount, hF] at hFind
    simp at hFind
    have hkv : kv = (key, acc) := by
      obtain ⟨k1, a1⟩ := kv
      have hk : k1 = key := by simpa using List.find?_some hF
      have ha : a1 = acc := by simpa using hFind
      simp [hk, ha]
    rw [hkv] at hF
    have hmem : (key, acc) ∈ accounts := List.mem_of_find?_eq_some hF
    refine ⟨?_, ?_, ?_⟩
    · constructor
      · intro hin
        have h3 := (List.mem_filter.mp hin).2
        simpa using h3
      · intro hcfg
        exact List.mem_filter.mpr ⟨hmem, by simpa using hcfg⟩
    · rw [createImapConnection, lookupAccount, hF]
      by_cases hcfg : (truthyOpt acc.user && truthyOpt acc.password) = true
      · have hc2 := hcfg
        rw [Bool.and_eq_true] at hc2
        simp [hc2.1, hc2.2, hcfg, Except.isOk, Except.toBool]
      · have hc2 := hcfg
        rw [Bool.and_eq_true] at hc2
        simp [hc2, hcfg, Except.isOk, Except.toBool]
    · intro hcfg
      have hc3 : ¬(truthyOpt acc.user = true ∧ truthyOpt acc.password = true)
          := by
        rw [← Bool.and_eq_true, hcfg]
        simp
      rw [createImapConnection, lookupAccount, hF]
      simp [hc3]

/-- Witness for C8: with one fully configured account and one lacking a
user, the first is listed and resolvable and the second rejects resolution
with the not-configured error. -/
theorem account_configured_iff_witness :
    ("a", accA) ∈ getConfiguredAccounts cfgTwo ∧
    (createImapConnection cfgTwo "a").isOk = true ∧
    createImapConnection cfgTwo "b"
      = .error ("Account " ++ "b" ++ " not configured") :=
  ⟨(account_configured_iff cfgTwo "a" accA (by decide)).1.mpr (by decide),
   (account_configured_iff cfgTwo "a" accA (by decide)).2.1.mpr (by decide),
   (account_configured_iff cfgTwo "b" accNoUser (by decide)).2.2 (by decide)⟩

theorem me_rw (accounts : AccountTable) (srv : ImapServer)
    (account sourceFolder : String) (uid : Nat) (targetFolder : String) :
    mutOnlyAfterRWOpen (imap_move_email accounts srv account sourceFolder
      uid targetFolder).2 = true ∧
    (∀ e, srv.openBoxRes sourceFolder false = .error e →
      mutationCmds (imap_move_email accounts srv account sourceFolder uid
        targetFolder).2 = []) := by
  constructor
  · rcases hcr : createImapConnection accounts account with er | conn
    · simp [imap_move_email, hcr, mutOnlyAfterRWOpen, rwGuard]
    · rcases hc : srv.connectRes with e | u
      · simp [imap_move_email, hcr, hc, mutOnlyAfterRWOpen, rwGuard,
          isMutation, isRWOpen]
      · rcases hob : srv.openBoxRes sourceFolder false with e | u2
        · simp [imap_move_email, hcr, hc, hob, mutOnlyAfterRWOpen, rwGuard,
            isMutation, isRWOpen]
        · rcases hm : srv.moveRes uid targetFolder with e | u3 <;>
            simp [imap_move_email, hcr, hc, hob, hm, mutOnlyAfterRWOpen,
              rwGuard, isMutation, isRWOpen]
  · intro e he
    rcases hcr : createImapConnection accounts account with er | conn
    · simp [imap_move_email, hcr, mutationCmds]
    · rcases hc : srv.connectRes with e2 | u
      · simp [imap_move_email, hcr, hc, mutationCmds, isMutation]
      · simp [imap_move_email, hcr, hc, he, mutationCmds, isMutation]

theorem mm_rw (accounts : AccountTable) (srv : ImapServer)
    (account sourceFolder messageId targetFolder : String) :
    mutOnlyAfterRWOpen (imap_move_by_message_id accounts srv account
      sourceFolder messageId targetFolder).2 = true ∧
    (∀ e, srv.openBoxRes sourceFolder false = .error e →
      mutationCmds (imap_move_by_message_id accounts srv account
        sourceFolder messageId targetFolder).2 = []) := by
  constructor
  · rcases hcr : createImapConnection accounts account with er | conn
    · simp [imap_move_by_message_id, hcr, mutOnlyAfterRWOpen, rwGuard]
    · rcases hc : srv.connectRes with e | u
      · simp [imap_move_by_message_id, hcr, hc, mutOnlyAfterRWOpen, rwGuard,
          isMutation, isRWOpen]
      · rcases hob : srv.openBoxRes sourceFolder false with e | u2
        · simp [imap_move_by_message_id, hcr, hc, hob, mutOnlyAfterRWOpen,
            rwGuard, isMutation, isRWOpen]
        · rcases hs : srv.searchRes (.headerMessageId messageId)
              with e | uids
          · simp [imap_move_by_message_id, hcr, hc, hob, hs,
              mutOnlyAfterRWOpen, rwGuard, isMutation, isRWOpen]
          · cases uids with
            | nil =>
              simp [imap_move_by_message_id, hcr, hc, hob, hs,
                mutOnlyAfterRWOpen, rwGuard, isMutation, isRWOpen]
            | cons u1 rest =>
              rcases hm : srv.moveRes u1 targetFolder with e | u3 <;>
                simp [imap_move_by_message_id, hcr, hc, hob, hs, hm,
                  mutOnlyAfterRWOpen, rwGuard, isMutation, isRWOpen]
  · intro e he
    rcases hcr : createImapConnection accounts account with er | conn
    · simp [imap_move_by_message_id, hcr, mutationCmds]
    · rcases hc : srv.connectRes with e2 | u
      · simp [imap_move_by_message_id, hcr, hc, mutationCmds, isMutation]
      · simp [imap_move_by_message_id, hcr, hc, he, mutationCmds,
          isMutation]

theorem de_rw (accounts : AccountTable) (srv : ImapServer)
    (account folder : String) (uid : Nat) :
    mutOnlyAfterRWOpen
      (imap_delete_email accounts srv account folder uid).2 = true ∧
    (∀ e, srv.openBoxRes folder false = .error e →
      mutationCmds (imap_delete_email accounts srv account folder uid).2
        = []) := by
  constructor
  · rcases hcr : createImapConnection accounts account with er | conn
    · simp [imap_delete_email, hcr, mutOnlyAfterRWOpen, rwGuard]
    · rcases hc : srv.connectRes with e | u
      · simp [imap_delete_email, hcr, hc, mutOnlyAfterRWOpen, rwGuard,
          isMutation, isRWOpen]
      · rcases hob : srv.openBoxRes folder false with e | u2
        · simp [imap_delete_email, hcr, hc, hob, mutOnlyAfterRWOpen,
            rwGuard, isMutation, isRWOpen]
        · rcases ha : srv.addFlagsRes [uid] ["\\Deleted"] with e | u3
          · simp [imap_delete_email, hcr, hc, hob, ha, mutOnlyAfterRWOpen,
              rwGuard, isMutation, isRWOpen]
          · rcases hx : srv.expungeRes with e | u4 <;>
              simp [imap_delete_email, hcr, hc, hob, ha, hx,
                mutOnlyAfterRWOpen, rwGuard, isMutation, isRWOpen]
  · intro e he
    rcases hcr : createImapConnection accounts account with er | conn
    · simp [imap_delete_email, hcr, mutationCmds]
    · rcases hc : srv.connectRes with e2 | u
      · simp [imap_delete_email, hcr, hc, mutationCmds, isMutation]
      · simp [imap_delete_email, hcr, hc, he, mutationCmds, isMutation]

theorem bm_rw (accounts : AccountTable) (srv : ImapServer)
    (account sourceFolder : String) (uids : List Nat)
    (targetFolder : String) :
    mutOnlyAfterRWOpen (imap_bulk_move accounts srv account sourceFolder
      uids targetFolder).2 = true ∧
    (∀ e, srv.openBoxRes sourceFolder false = .error e →
      mutationCmds (imap_bulk_move accounts srv account sourceFolder uids
        targetFolder).2 = []) := by
  constructor
  · rcases hcr : createImapConnection accounts account with er | conn
    · simp [imap_bulk_move, hcr, mutOnlyAfterRWOpen, rwGuard]
    · rcases hc : srv.connectRes with e | u
      · simp [imap_bulk_move, hcr, hc, mutOnlyAfterRWOpen, rwGuard,
          isMutation, isRWOpen]
      · rcases hob : srv.openBoxRes sourceFolder false with e | u2
        · simp [imap_bulk_move, hcr, hc, hob, mutOnlyAfterRWOpen, rwGuard,
            isMutation, isRWOpen]
        · simp only [imap_bulk_move, hcr, hc, hob, mutOnlyAfterRWOpen,
            bulkMoveLoop_snd]
          simp [rwGuard, isMutation, isRWOpen, rwGuard_moveList]
  · intro e he
    rcases hcr : createImapConnection accounts account with er | conn
    · simp [imap_bulk_move, hcr, mutationCmds]
    · rcases hc : srv.connectRes with e2 | u
      · simp [imap_bulk_move, hcr, hc, mutationCmds, isMutation]
      · simp [imap_bulk_move, hcr, hc, he, mutationCmds, isMutation]

theorem mu_rw (accounts : AccountTable) (srv : ImapServer)
    (account folder : String) (uids : Option (List Nat)) (allFlag : Bool) :
    mutOnlyAfterRWOpen
      (imap_mark_unseen accounts srv account folder uids allFlag).2
      = true ∧
    (∀ e, srv.openBoxRes folder false = .error e →
      mutationCmds
        (imap_mark_unseen accounts srv account folder uids allFlag).2
        = []) := by
  constructor
  · rcases hcr : createImapConnection accounts account with er | conn
    · simp [imap_mark_unseen, hcr, mutOnlyAfterRWOpen, rwGuard]
    · rcases hc : srv.connectRes with e | u
      · simp [imap_mark_unseen, hcr, hc, mutOnlyAfterRWOpen, rwGuard,
          isMutation, isRWOpen]
      · rcases hob : srv.openBoxRes folder false with e | u2
        · simp [imap_mark_unseen, hcr, hc, hob, mutOnlyAfterRWOpen,
            rwGuard, isMutation, isRWOpen]
        · by_cases hall : useSearchAll allFlag uids
          · rcases hs : srv.searchRes .all with e | found
            · simp [imap_mark_unseen, hcr, hc, hob, hall, hs,
                mutOnlyAfterRWOpen, rwGuard, isMutation, isRWOpen]
            · by_cases hemp : found.isEmpty
              · simp [imap_mark_unseen, hcr, hc, hob, hall, hs, hemp,
                  markUnseenFinish, mutOnlyAfterRWOpen, rwGuard,
                  isMutation, isRWOpen]
              · rcases hd : srv.delFlagsRes found ["\\Seen"] with e | u3 <;>
                  simp [imap_mark_unseen, hcr, hc, hob, hall, hs, hemp, hd,
                    markUnseenFinish, mutOnlyAfterRWOpen, rwGuard,
                    isMutation, isRWOpen]
          · by_cases hemp : (uids.getD []).isEmpty
            · simp [imap_mark_unseen, hcr, hc, hob, hall, hemp,
                markUnseenFinish, mutOnlyAfterRWOpen, rwGuard,
                isMutation, isRWOpen]
            · rcases hd : srv.delFlagsRes (uids.getD []) ["\\Seen"]
                  with e | u3 <;>
                simp [imap_mark_unseen, hcr, hc, hob, hall, hemp, hd,
                  markUnseenFinish, mutOnlyAfterRWOpen, rwGuard,
                  isMutation, isRWOpen]
  · intro e he
    rcases hcr : createImapConnection accounts account with er | conn
    · simp [imap_mark_unseen, hcr, mutationCmds]
    · rcases hc : srv.connectRes with e2 | u
      · simp [imap_mark_unseen, hcr, hc, mutationCmds, isMutation]
      · simp [imap_mark_unseen, hcr, hc, he, mutationCmds, isMutation]

/-- An oracle that rejects every mailbox open. -/
def srvOpenFail : ImapServer :=
  { srvOk with openBoxRes := fun _ _ => .error "cannot open mailbox" }

/-- C9: every mutating operation (move, move by Message-ID, delete, bulk
move, mark unseen) only issues mutation commands after a read-write open of
the mailbox it mutates, and when that open fails it issues no mutation
command at all. -/
theorem mutations_need_rw_select (accounts : AccountTable)
    (srv : ImapServer) (account folder sourceFolder messageId
      targetFolder : String) (uid : Nat) (uids : List Nat)
    (uidsOpt : Option (List Nat)) (allFlag : Bool) :
    (mutOnlyAfterRWOpen (imap_move_email accounts srv account sourceFolder
        uid targetFolder).2 = true ∧
      mutOnlyAfterRWOpen (imap_move_by_message_id accounts srv account
        sourceFolder messageId targetFolder).2 = true ∧
      mutOnlyAfterRWOpen
        (imap_delete_email accounts srv account folder uid).2 = true ∧
      mutOnlyAfterRWOpen (imap_bulk_move accounts srv account sourceFolder
        uids targetFolder).2 = true ∧
      mutOnlyAfterRWOpen
        (imap_mark_unseen accounts srv account folder uidsOpt allFlag).2
        = true) ∧
    (∀ e, srv.openBoxRes sourceFolder false = .error e →
      mutationCmds (imap_move_email accounts srv account sourceFolder uid
        targetFolder).2 = [] ∧
      mutationCmds (imap_move_by_message_id accounts srv account
        sourceFolder messageId targetFolder).2 = [] ∧
      mutationCmds (imap_bulk_move accounts srv account sourceFolder uids
        targetFolder).2 = []) ∧
    (∀ e, srv.openBoxRes folder false = .error e →
      mutationCmds (imap_delete_email accounts srv account folder uid).2
        = [] ∧
      mutationCmds
        (imap_mark_unseen accounts srv account folder uidsOpt allFlag).2
        = []) := by
  refine ⟨⟨(me_rw accounts srv account sourceFolder uid targetFolder).1,
      (mm_rw accounts srv account sourceFolder messageId targetFolder).1,
      (de_rw accounts srv account folder uid).1,
      (bm_rw accounts srv account sourceFolder uids targetFolder).1,
      (mu_rw accounts srv account folder uidsOpt allFlag).1⟩, ?_, ?_⟩
  · intro e he
    exact ⟨(me_rw accounts srv account sourceFolder uid targetFolder).2
        e he,
      (mm_rw accounts srv account sourceFolder messageId targetFolder).2
        e he,
      (bm_rw accounts srv account sourceFolder uids targetFolder).2 e he⟩
  · intro e he
    exact ⟨(de_rw accounts srv account folder uid).2 e he,
      (mu_rw accounts srv account folder uidsOpt allFlag).2 e he⟩

/-- Witness for C9: on the all-ok oracle every mutating operation opens
read-write before mutating, and on an oracle rejecting every open the
delete operation issues no mutation. -/
theorem mutations_need_rw_select_witness :
    mutOnlyAfterRWOpen (imap_delete_email cfgA srvOk "a" "INBOX" 5).2
      = true ∧
    mutationCmds (imap_delete_email cfgA srvOpenFail "a" "INBOX" 5).2
      = [] :=
  ⟨(mutations_need_rw_select cfgA srvOk "a" "INBOX" "INBOX" "m" "T" 5 [1]
      none false).1.2.2.1,
   ((mutations_need_rw_select cfgA srvOpenFail "a" "INBOX" "INBOX" "m" "T"
      5 [1] none false).2.2 "cannot open mailbox" rfl).1⟩

/-- C10: a mark-unseen call with no identifier list, an empty one, or the
all flag set searches the folder for ALL messages; when the folder is empty
it reports success with count zero without issuing any flag command, and
otherwise it issues one remove-Seen flag command covering every found
message and (when that command is accepted) reports success with the full
count. -/
theorem mark_unseen_searches_all (accounts : AccountTable)
    (srv : ImapServer) (account folder : String)
    (uidsOpt : Option (List Nat)) (allFlag : Bool) (found : List Nat)
    (hCreate : (createImapConnection accounts account).isOk = true)
    (hConn : srv.connectRes = .ok ())
    (hOpen : srv.openBoxRes folder false = .ok ())
    (hMode : useSearchAll allFlag uidsOpt = true)
    (hSearch : srv.searchRes .all = .ok found) :
    Cmd.searchCmd .all
      ∈ (imap_mark_unseen accounts srv account folder uidsOpt allFlag).2 ∧
    (found = [] →
      (imap_mark_unseen accounts srv account folder uidsOpt
        allFlag).1.success = true ∧
      (imap_mark_unseen accounts srv account folder uidsOpt
        allFlag).1.count = some 0 ∧
      flagCmds
        (imap_mark_unseen accounts srv account folder uidsOpt allFlag).2
        = []) ∧
    (found ≠ [] → Cmd.delFlagsCmd found ["\\Seen"]
      ∈ (imap_mark_unseen accounts srv account folder uidsOpt allFlag).2) ∧
    (found ≠ [] → srv.delFlagsRes found ["\\Seen"] = .ok () →
      (imap_mark_unseen accounts srv account folder uidsOpt
        allFlag).1.success = true ∧
      (imap_mark_unseen accounts srv account folder uidsOpt
        allFlag).1.count = some found.length) := by
  rcases hcr : createImapConnection accounts account with er | conn
  · rw [hcr] at hCreate; simp [Except.isOk, Except.toBool] at hCreate
  · refine ⟨?_, ?_, ?_, ?_⟩
    · by_cases hemp : found.isEmpty
      · simp [imap_mark_unseen, hcr, hConn, hOpen, hMode, hSearch,
          markUnseenFinish, hemp]
      · rcases hd : srv.delFlagsRes found ["\\Seen"] with e | u3 <;>
          simp [imap_mark_unseen, hcr, hConn, hOpen, hMode, hSearch,
            markUnseenFinish, hemp, hd]
    · intro hf
      subst hf
      simp [imap_mark_unseen, hcr, hConn, hOpen, hMode, hSearch,
        markUnseenFinish, flagCmds, isFlagCmd]
    · intro hf
      have hemp : found.isEmpty = false := by
        cases found with
        | nil => simp at hf
        | cons a l => simp
      rcases hd : srv.delFlagsRes found ["\\Seen"] with e | u3 <;>
        simp [imap_mark_unseen, hcr, hConn, hOpen, hMode, hSearch,
          markUnseenFinish, hemp, hd]
    · intro hf hd
      have hemp : found.isEmpty = false := by
        cases found with
        | nil => simp at hf
        | cons a l => simp
      simp [imap_mark_unseen, hcr, hConn, hOpen, hMode, hSearch,
        markUnseenFinish, hemp, hd]

/-- Witness for C10: with no uid list on an empty folder the report is a
count-zero success with no flag command; with two found messages the
remove-Seen command covers both. -/
theorem mark_unseen_searches_all_witness :
    ((imap_mark_unseen cfgA srvOk "a" "INBOX" none true).1.success
      = true ∧
    (imap_mark_unseen cfgA srvOk "a" "INBOX" none true).1.count
      = some 0 ∧
    flagCmds (imap_mark_unseen cfgA srvOk "a" "INBOX" none true).2 = []) ∧
    Cmd.delFlagsCmd [7, 8] ["\\Seen"]
      ∈ (imap_mark_unseen cfgA srvTwoMatches "a" "INBOX" none true).2 :=
  ⟨(mark_unseen_searches_all cfgA srvOk "a" "INBOX" none true []
      (by decide) rfl rfl rfl rfl).2.1 rfl,
   (mark_unseen_searches_all cfgA srvTwoMatches "a" "INBOX" none true
      [7, 8] (by decide) rfl rfl rfl rfl).2.2.1 (by decide)⟩

end ImapMcp
